import Mathlib

/-!
Shallow embedding of the client interaction/state-machine layer of the
sentiment-analyzer frontend (src/src/components/sentiment-analyzer.tsx).

The component is a single-threaded React component whose operations
(`handleAnalyze`, `fetchHistory`) are async functions suspending only at the
network boundary.  We embed them as pure state-transformers: each operation
takes the component state, the behaviour of the network environment for the
calls it makes (resolved response / rejected promise / body-decode outcome),
and a clock value standing for `new Date()`, and returns the final state
together with the list of HTTP requests it issued.  JavaScript numbers are
modelled as exact rationals (the claims about scores concern only order
comparisons at the 0.1 thresholds, which agree), and `Date` values as either
a valid instant or the JavaScript "Invalid Date" marker.  `new Date(string)`
is a platform builtin and never throws; it is modelled as an arbitrary total
function `parseDate : String → JSDate`.
-/

namespace SentimentAnalyzer

/-- A JavaScript `Date` value: either a valid instant (milliseconds since
epoch) or the `Invalid Date` value produced by `new Date` on an
unparseable string. -/
inductive JSDate where
  | valid (ms : Int)
  | invalid
deriving DecidableEq, Repr

/-- JavaScript `String.prototype.trim` (platform builtin used by the guard
`!text.trim()` and the request body `text.trim()`): removes leading and
trailing whitespace.  Stated character-listwise so that it evaluates by
kernel reduction on concrete strings. -/
def jsTrim (s : String) : String :=
  ⟨((s.data.dropWhile Char.isWhitespace).reverse.dropWhile Char.isWhitespace).reverse⟩

/-- JavaScript `String.prototype.slice(0, n)` (platform builtin used by
`truncateText`): the first `n` characters of the string. -/
def jsTake (s : String) (n : Nat) : String :=
  ⟨s.data.take n⟩

/-- The canonical in-memory record (`interface AnalysisResult`, lines
18–24 of the source): `id` optional, `text`, `sentiment`, `score`,
`timestamp`.  The TypeScript union type on `sentiment` is a compile-time
cast with no runtime check, so it is embedded as a plain string. -/
structure AnalysisResult where
  id : Option String
  text : String
  sentiment : String
  score : ℚ
  timestamp : JSDate
deriving DecidableEq, Repr

/-- The component's state slots (the six `useState` hooks, lines 27–32):
`text` (draft text), `result` (current result), `history`, `isAnalyzing`,
`isLoadingHistory`, `errorMessage`. -/
structure ComponentState where
  text : String
  result : Option AnalysisResult
  history : List AnalysisResult
  isAnalyzing : Bool
  isLoadingHistory : Bool
  errorMessage : Option String
deriving DecidableEq, Repr

/-- Wire shape of a successful `POST /analyze` body (lines 96–100). -/
structure AnalyzeWire where
  input_text : String
  sentiment : String
  compound_score : ℚ
deriving DecidableEq, Repr

/-- Wire shape of one `GET /history` array item (lines 47–53). -/
structure HistoryWire where
  id : String
  input_text : String
  sentiment : String
  compound_score : ℚ
  created_at : String
deriving DecidableEq, Repr

/-- A JavaScript thrown value as observed by the `catch` blocks: either an
`Error` carrying a message, or some non-`Error` value (the code tests
`error instanceof Error`). -/
inductive Thrown where
  | err (msg : String)
  | nonError
deriving DecidableEq, Repr

/-- `error instanceof Error ? error.message : fallback`. -/
def Thrown.message : Thrown → String → String
  | .err m, _ => m
  | .nonError, fb => fb

/-- Behaviour of the environment for one `fetch` call: the promise either
rejects with a thrown value, or resolves to a response with an `ok` flag
and (when the body is read) a `json()` outcome that itself may throw. -/
inductive FetchResult (β : Type) where
  | reject (t : Thrown)
  | resolve (ok : Bool) (json : Except Thrown β)

/-- An HTTP request issued by an operation, for reasoning about which
network calls were made. -/
inductive Request where
  | analyze (body : String)
  | historyReq (limit : Nat)
deriving DecidableEq, Repr

/-- Whether the call fails: rejected promise, non-ok status, or body-decode
error. -/
def FetchResult.isFailure : FetchResult β → Bool
  | .reject _ => true
  | .resolve ok json =>
    !ok || (match json with | .error _ => true | .ok _ => false)

/-- The thrown value (if any) this environment produces carries a non-empty
message.  JavaScript platform errors (`fetch` rejections, `json()` decode
errors) always carry a descriptive non-empty message; this predicate makes
that environmental fact explicit. -/
def FetchResult.failMsgNonempty : FetchResult β → Bool
  | .reject t => (match t with | .err m => m != "" | .nonError => true)
  | .resolve _ (.error t) => (match t with | .err m => m != "" | .nonError => true)
  | .resolve _ (.ok _) => true

/-- The normalisation of one history wire item (the `data.map` callback,
lines 55–61): `id` present, `text := input_text`, `score := compound_score`,
`timestamp := new Date(created_at)`. -/
def mapHistoryItem (parseDate : String → JSDate) (item : HistoryWire) :
    AnalysisResult :=
  { id := some item.id
    text := item.input_text
    sentiment := item.sentiment
    score := item.compound_score
    timestamp := parseDate item.created_at }

/-- The synchronous opening of `fetchHistory` (lines 38–39), executed before
the first `await`: sets `isLoadingHistory` and clears `errorMessage`. -/
def fetchHistoryStart (s : ComponentState) : ComponentState :=
  { s with isLoadingHistory := true, errorMessage := none }

/-- The remainder of `fetchHistory` (lines 41–70) after the opening: the
`try` block fetches and maps the array, `catch` converts any thrown value to
`errorMessage`, `finally` clears `isLoadingHistory`. -/
def fetchHistoryRun (parseDate : String → JSDate) (s : ComponentState)
    (env : FetchResult (List HistoryWire)) : ComponentState :=
  let afterTry : ComponentState × Option Thrown :=
    match env with
    | .reject t => (s, some t)
    | .resolve ok json =>
      if !ok then (s, some (.err "Failed to load history"))
      else
        match json with
        | .error t => (s, some t)
        | .ok data => ({ s with history := data.map (mapHistoryItem parseDate) }, none)
  let afterCatch : ComponentState :=
    match afterTry.2 with
    | some t => { afterTry.1 with errorMessage := some (t.message "Failed to load history") }
    | none => afterTry.1
  { afterCatch with isLoadingHistory := false }

/-- `fetchHistory` (lines 37–71): the full operation, returning the final
state and the single `GET /history?limit=10` request it issues. -/
def fetchHistory (parseDate : String → JSDate) (s : ComponentState)
    (env : FetchResult (List HistoryWire)) : ComponentState × List Request :=
  (fetchHistoryRun parseDate (fetchHistoryStart s) env, [Request.historyReq 10])

/-- `handleAnalyze` (lines 77–118): guard on blank trimmed text, set
`isAnalyzing` and clear `errorMessage`, `POST /analyze` with the trimmed
text, throw on non-ok status, decode the body, set `result` to the
normalised record with `timestamp := new Date()` (the `now` argument), then
`await fetchHistory()` (which never throws); `catch` converts any thrown
value to `errorMessage`, `finally` clears `isAnalyzing`. -/
def handleAnalyze (parseDate : String → JSDate) (now : JSDate)
    (s : ComponentState) (env : FetchResult AnalyzeWire)
    (histEnv : FetchResult (List HistoryWire)) : ComponentState × List Request :=
  if jsTrim s.text = "" then (s, [])
  else
    let s1 := { s with isAnalyzing := true, errorMessage := none }
    let req := Request.analyze (jsTrim s.text)
    let afterTry : ComponentState × List Request × Option Thrown :=
      match env with
      | .reject t => (s1, [req], some t)
      | .resolve ok json =>
        if !ok then (s1, [req], some (.err "Analysis failed. Please try again."))
        else
          match json with
          | .error t => (s1, [req], some t)
          | .ok data =>
            let newResult : AnalysisResult :=
              { id := none
                text := data.input_text
                sentiment := data.sentiment
                score := data.compound_score
                timestamp := now }
            let s2 := { s1 with result := some newResult }
            let hist := fetchHistory parseDate s2 histEnv
            (hist.1, req :: hist.2, none)
    let afterCatch : ComponentState :=
      match afterTry.2.2 with
      | some t => { afterTry.1 with errorMessage := some (t.message "Analysis failed.") }
      | none => afterTry.1
    ({ afterCatch with isAnalyzing := false }, afterTry.2.1)

/-- `getScoreColor` (lines 142–146): the score-to-colour mapping, a function
of the score alone. -/
def getScoreColor (score : ℚ) : String :=
  if score > 0.1 then "text-positive"
  else if score < -0.1 then "text-negative"
  else "text-neutral"

/-- `truncateText` (lines 152–155): unchanged at or under the limit, else
the first `maxLength` characters followed by the ellipsis marker. -/
def truncateText (text : String) (maxLength : Nat := 60) : String :=
  if text.length ≤ maxLength then text
  else jsTake text maxLength ++ "..."

/-! ### Concrete fixtures used by witnesses and counterexamples -/

/-- A parse function on which every string is unparseable (models
`new Date` on malformed input: it yields `Invalid Date`, never throws). -/
def noParse : String → JSDate := fun _ => JSDate.invalid

/-- A sample pre-operation state with a stale error message. -/
def sampleState : ComponentState :=
  { text := "I love this product!"
    result := none
    history := []
    isAnalyzing := false
    isLoadingHistory := false
    errorMessage := some "old error" }

/-- A sample successful analyze response body. -/
def sampleWire : AnalyzeWire :=
  { input_text := "I love this product!", sentiment := "Positive", compound_score := 4/5 }

/-- A sample well-formed history item. -/
def sampleHistItem : HistoryWire :=
  { id := "1", input_text := "hi", sentiment := "Positive", compound_score := 1/2,
    created_at := "2024-01-01T00:00:00Z" }

/-- A history item whose `created_at` is not a parseable date. -/
def badHistItem : HistoryWire :=
  { id := "2", input_text := "bad", sentiment := "Neutral", compound_score := 0,
    created_at := "not-a-date" }

/-! ### Claims -/

/-- C4: for every draft text that trims to the empty string, `handleAnalyze`
performs no network call and returns every state slot unchanged — a silent
no-op, not an error. -/
theorem C4_blank_submit_is_noop (parseDate : String → JSDate) (now : JSDate)
    (s : ComponentState) (env : FetchResult AnalyzeWire)
    (histEnv : FetchResult (List HistoryWire)) (h : jsTrim s.text = "") :
    handleAnalyze parseDate now s env histEnv = (s, []) := by
  simp [handleAnalyze, h]

/-- Witness for C4 at a concrete whitespace-only draft text. -/
theorem C4_blank_submit_is_noop_witness :
    jsTrim "  \t " = "" ∧
    handleAnalyze noParse (JSDate.valid 0) { sampleState with text := "  \t " }
      (.resolve true (.ok sampleWire)) (.resolve true (.ok [sampleHistItem])) =
      ({ sampleState with text := "  \t " }, []) :=
  ⟨by decide, C4_blank_submit_is_noop _ _ _ _ _ (by decide)⟩

/-- C1: for every successful analyze response (ok status, decoded body),
`handleAnalyze` sets the current result to the record whose `text`,
`sentiment` and `score` are copied verbatim from `input_text`, `sentiment`
and `compound_score`, whose `timestamp` is the client clock at completion
(`new Date()`, the `now` argument — the analyze body carries no server
time), and whose `id` is absent; and it issues the history-refresh request.
The conclusion holds for every behaviour of that refresh, so a refresh
failure does not roll back the just-set result. -/
theorem C1_success_sets_result (parseDate : String → JSDate) (now : JSDate)
    (s : ComponentState) (data : AnalyzeWire)
    (histEnv : FetchResult (List HistoryWire)) (h : jsTrim s.text ≠ "") :
    (handleAnalyze parseDate now s (.resolve true (.ok data)) histEnv).1.result =
      some { id := none, text := data.input_text, sentiment := data.sentiment,
             score := data.compound_score, timestamp := now } ∧
    (handleAnalyze parseDate now s (.resolve true (.ok data)) histEnv).2 =
      [Request.analyze (jsTrim s.text), Request.historyReq 10] := by
  cases histEnv with
  | reject t =>
    simp [handleAnalyze, h, fetchHistory, fetchHistoryRun, fetchHistoryStart]
  | resolve ok json =>
    cases ok <;> cases json <;>
      simp [handleAnalyze, h, fetchHistory, fetchHistoryRun, fetchHistoryStart]

/-- Witness for C1: a concrete successful analyze whose follow-up history
refresh fails with a network error. -/
theorem C1_success_sets_result_witness :
    (handleAnalyze noParse (JSDate.valid 1700000000000) sampleState
        (.resolve true (.ok sampleWire)) (.reject (.err "network down"))).1.result =
      some { id := none, text := sampleWire.input_text, sentiment := sampleWire.sentiment,
             score := sampleWire.compound_score, timestamp := JSDate.valid 1700000000000 } ∧
    (handleAnalyze noParse (JSDate.valid 1700000000000) sampleState
        (.resolve true (.ok sampleWire)) (.reject (.err "network down"))).2 =
      [Request.analyze (jsTrim sampleState.text), Request.historyReq 10] :=
  C1_success_sets_result noParse (JSDate.valid 1700000000000) sampleState sampleWire
    (.reject (.err "network down")) (by decide)

/-- C2: every failing analyze call (rejected fetch, non-ok status, or
body-decode error) leaves `result`, `history` and the draft text exactly as
they were, sets `errorMessage` to a non-empty message, and ends with
`isAnalyzing` false.  Platform thrown errors carry non-empty messages; the
`failMsgNonempty` hypothesis records that environmental fact. -/
theorem C2_failure_preserves_state (parseDate : String → JSDate) (now : JSDate)
    (s : ComponentState) (env : FetchResult AnalyzeWire)
    (histEnv : FetchResult (List HistoryWire)) (h : jsTrim s.text ≠ "")
    (hfail : env.isFailure = true) (hmsg : env.failMsgNonempty = true) :
    (handleAnalyze parseDate now s env histEnv).1.result = s.result ∧
    (handleAnalyze parseDate now s env histEnv).1.history = s.history ∧
    (handleAnalyze parseDate now s env histEnv).1.text = s.text ∧
    (handleAnalyze parseDate now s env histEnv).1.isAnalyzing = false ∧
    ∃ m, (handleAnalyze parseDate now s env histEnv).1.errorMessage = some m ∧ m ≠ "" := by
  cases env with
  | reject t =>
    cases t with
    | err m =>
      have hm : m ≠ "" := by simpa [FetchResult.failMsgNonempty] using hmsg
      simp [handleAnalyze, h, Thrown.message]
      exact hm
    | nonError => simp [handleAnalyze, h, Thrown.message]
  | resolve ok json =>
    cases ok with
    | false =>
      cases json <;> simp [handleAnalyze, h, Thrown.message]
    | true =>
      cases json with
      | error t =>
        cases t with
        | err m =>
          have hm : m ≠ "" := by simpa [FetchResult.failMsgNonempty] using hmsg
          simp [handleAnalyze, h, Thrown.message]
          exact hm
        | nonError => simp [handleAnalyze, h, Thrown.message]
      | ok data => simp [FetchResult.isFailure] at hfail

/-- Witness for C2: a concrete analyze call answered with a non-ok (HTTP
error) status. -/
theorem C2_failure_preserves_state_witness :
    (handleAnalyze noParse (JSDate.valid 0) sampleState
        (.resolve false (.ok sampleWire)) (.reject .nonError)).1.result =
      sampleState.result ∧
    (handleAnalyze noParse (JSDate.valid 0) sampleState
        (.resolve false (.ok sampleWire)) (.reject .nonError)).1.history =
      sampleState.history ∧
    (handleAnalyze noParse (JSDate.valid 0) sampleState
        (.resolve false (.ok sampleWire)) (.reject .nonError)).1.text =
      sampleState.text ∧
    (handleAnalyze noParse (JSDate.valid 0) sampleState
        (.resolve false (.ok sampleWire)) (.reject .nonError)).1.isAnalyzing = false ∧
    ∃ m, (handleAnalyze noParse (JSDate.valid 0) sampleState
        (.resolve false (.ok sampleWire)) (.reject .nonError)).1.errorMessage = some m ∧
      m ≠ "" :=
  C2_failure_preserves_state noParse (JSDate.valid 0) sampleState
    (.resolve false (.ok sampleWire)) (.reject .nonError)
    (by decide) (by decide) (by decide)

/-- C3: a history refresh whose response resolves to an array replaces
`history` with the normalisation of that array — same length and order, each
record's `id`, `text`, `sentiment`, `score` copied from the corresponding
item's `id`, `input_text`, `sentiment`, `compound_score`, and `timestamp`
the parse of `created_at`; no error is set, and the empty array yields the
empty history. -/
theorem C3_history_replaced (parseDate : String → JSDate) (s : ComponentState)
    (data : List HistoryWire) :
    ((fetchHistory parseDate s (.resolve true (.ok data))).1.history =
        data.map (mapHistoryItem parseDate)) ∧
    ((fetchHistory parseDate s (.resolve true (.ok data))).1.history.length =
        data.length) ∧
    (∀ item : HistoryWire,
        mapHistoryItem parseDate item =
          { id := some item.id, text := item.input_text, sentiment := item.sentiment,
            score := item.compound_score, timestamp := parseDate item.created_at }) ∧
    ((fetchHistory parseDate s (.resolve true (.ok data))).1.errorMessage = none) ∧
    (data = [] → (fetchHistory parseDate s (.resolve true (.ok data))).1.history = []) := by
  refine ⟨?_, ?_, fun item => rfl, ?_, fun hdata => ?_⟩
  · simp [fetchHistory, fetchHistoryRun, fetchHistoryStart]
  · simp [fetchHistory, fetchHistoryRun, fetchHistoryStart]
  · simp [fetchHistory, fetchHistoryRun, fetchHistoryStart]
  · simp [fetchHistory, fetchHistoryRun, fetchHistoryStart, hdata]

/-- Witness for C3 at the empty-array response. -/
theorem C3_history_replaced_witness :
    (fetchHistory noParse sampleState (.resolve true (.ok []))).1.history = [] ∧
    (fetchHistory noParse sampleState (.resolve true (.ok []))).1.errorMessage = none :=
  ⟨(C3_history_replaced noParse sampleState []).2.2.2.2 rfl,
   (C3_history_replaced noParse sampleState []).2.2.2.1⟩

/-- C7: the score-to-colour mapping is computed from the score alone
(`getScoreColor` takes only the score) and returns the positive category iff
score > 0.1, the negative category iff score < -0.1, and the neutral
category otherwise; in particular 0.1 and -0.1 themselves map to neutral. -/
theorem C7_score_color_thresholds (score : ℚ) :
    (getScoreColor score = "text-positive" ↔ 0.1 < score) ∧
    (getScoreColor score = "text-negative" ↔ score < -0.1) ∧
    (getScoreColor score = "text-neutral" ↔ -0.1 ≤ score ∧ score ≤ 0.1) ∧
    getScoreColor 0.1 = "text-neutral" ∧
    getScoreColor (-0.1) = "text-neutral" ∧
    getScoreColor 0.1000001 = "text-positive" ∧
    getScoreColor (-0.1000001) = "text-negative" := by
  refine ⟨?_, ?_, ?_, by norm_num [getScoreColor], by norm_num [getScoreColor],
    by norm_num [getScoreColor], by norm_num [getScoreColor]⟩ <;>
  · unfold getScoreColor
    split_ifs <;> simp_all <;> linarith

/-- C8: `truncateText` returns the string unchanged when its length is at
most the limit (default 60), and otherwise the first `maxLength` characters
followed by the three-character ellipsis marker; a 61-character string with
the default limit yields a 60-character prefix plus the marker (total 63),
and a 60-character string is returned unchanged. -/
theorem C8_truncate (s : String) (m : Nat) :
    (s.length ≤ m → truncateText s m = s) ∧
    (m < s.length → truncateText s m = jsTake s m ++ "..." ∧
        (truncateText s m).length = m + 3) ∧
    (s.length = 61 → truncateText s = jsTake s 60 ++ "..." ∧
        (truncateText s).length = 63) ∧
    (s.length ≤ 60 → truncateText s = s) := by
  have hdata : s.length = s.data.length := rfl
  have hlen : ∀ k, k < s.length → (jsTake s k ++ "...").length = k + 3 := by
    intro k hk
    have h1 : (jsTake s k ++ "...").length
        = (s.data.take k ++ ('.' :: '.' :: '.' :: [])).length := rfl
    rw [h1, List.length_append, List.length_take]
    simp only [List.length_cons, List.length_nil]
    omega
  have tr : ∀ k, ¬ s.length ≤ k → truncateText s k = jsTake s k ++ "..." := by
    intro k hk
    unfold truncateText
    rw [if_neg hk]
  refine ⟨fun h => by simp [truncateText, h], fun h => ?_, fun h => ?_,
    fun h => by simp [truncateText, h]⟩
  · have hne : ¬ s.length ≤ m := by omega
    exact ⟨tr m hne, by rw [tr m hne]; exact hlen m h⟩
  · have hne : ¬ s.length ≤ 60 := by omega
    exact ⟨tr 60 hne, by rw [tr 60 hne]; exact hlen 60 (by omega)⟩

/-- Witness for C8 at a concrete 61-character string (truncated to the
60-character head plus the marker) and a concrete short string (returned
unchanged). -/
theorem C8_truncate_witness :
    truncateText "0123456789012345678901234567890123456789012345678901234567890"
      = jsTake "0123456789012345678901234567890123456789012345678901234567890" 60 ++ "..." ∧
    (truncateText "0123456789012345678901234567890123456789012345678901234567890").length = 63 ∧
    truncateText "012345678901234567890123456789012345678901234567890123456789"
      = "012345678901234567890123456789012345678901234567890123456789" :=
  ⟨((C8_truncate "0123456789012345678901234567890123456789012345678901234567890" 0).2.2.1
      (by decide)).1,
   ((C8_truncate "0123456789012345678901234567890123456789012345678901234567890" 0).2.2.1
      (by decide)).2,
   (C8_truncate "012345678901234567890123456789012345678901234567890123456789" 0).2.2.2
      (by decide)⟩

/-- C9: both operations are total state transformers — every outcome
(success, rejected fetch, non-ok status, decode error) is absorbed at the
operation boundary, nothing escapes — failures are converted into the
`errorMessage` slot, and each operation's busy flag (`isAnalyzing`,
respectively `isLoadingHistory`) is cleared by its `finally` step on every
path. -/
theorem C9_boundary_catches_all :
    (∀ (parseDate : String → JSDate) (now : JSDate) (s : ComponentState)
        (env : FetchResult AnalyzeWire) (histEnv : FetchResult (List HistoryWire)),
        jsTrim s.text ≠ "" →
        (handleAnalyze parseDate now s env histEnv).1.isAnalyzing = false) ∧
    (∀ (parseDate : String → JSDate) (s : ComponentState)
        (env : FetchResult (List HistoryWire)),
        (fetchHistory parseDate s env).1.isLoadingHistory = false) ∧
    (∀ (parseDate : String → JSDate) (s : ComponentState)
        (env : FetchResult (List HistoryWire)), env.isFailure = true →
        ∃ m, (fetchHistory parseDate s env).1.errorMessage = some m) ∧
    (∀ (parseDate : String → JSDate) (now : JSDate) (s : ComponentState)
        (env : FetchResult AnalyzeWire) (histEnv : FetchResult (List HistoryWire)),
        jsTrim s.text ≠ "" → env.isFailure = true →
        ∃ m, (handleAnalyze parseDate now s env histEnv).1.errorMessage = some m) := by
  refine ⟨?_, ?_, ?_, ?_⟩
  · intro pd now s env histEnv h
    cases env with
    | reject t => simp [handleAnalyze, h]
    | resolve ok json =>
      cases ok <;> cases json <;>
        simp [handleAnalyze, h, fetchHistory, fetchHistoryRun, fetchHistoryStart]
  · intro pd s env
    cases env with
    | reject t => simp [fetchHistory, fetchHistoryRun, fetchHistoryStart]
    | resolve ok json =>
      cases ok <;> cases json <;>
        simp [fetchHistory, fetchHistoryRun, fetchHistoryStart]
  · intro pd s env hfail
    cases env with
    | reject t =>
      exact ⟨t.message "Failed to load history",
        by simp [fetchHistory, fetchHistoryRun, fetchHistoryStart]⟩
    | resolve ok json =>
      cases ok with
      | false =>
        cases json <;>
          exact ⟨"Failed to load history",
            by simp [fetchHistory, fetchHistoryRun, fetchHistoryStart, Thrown.message]⟩
      | true =>
        cases json with
        | error t =>
          exact ⟨t.message "Failed to load history",
            by simp [fetchHistory, fetchHistoryRun, fetchHistoryStart]⟩
        | ok data => simp [FetchResult.isFailure] at hfail
  · intro pd now s env histEnv h hfail
    cases env with
    | reject t =>
      exact ⟨t.message "Analysis failed.", by simp [handleAnalyze, h]⟩
    | resolve ok json =>
      cases ok with
      | false =>
        cases json <;>
          exact ⟨"Analysis failed. Please try again.",
            by simp [handleAnalyze, h, Thrown.message]⟩
      | true =>
        cases json with
        | error t =>
          exact ⟨t.message "Analysis failed.", by simp [handleAnalyze, h]⟩
        | ok data => simp [FetchResult.isFailure] at hfail

/-- Witness for C9: concrete failing calls (rejected analyze fetch, non-ok
history response). -/
theorem C9_boundary_catches_all_witness :
    (handleAnalyze noParse (JSDate.valid 0) sampleState (.reject (.err "boom"))
        (.reject .nonError)).1.isAnalyzing = false ∧
    (fetchHistory noParse sampleState (.resolve false (.ok []))).1.isLoadingHistory = false ∧
    (∃ m, (fetchHistory noParse sampleState
        (.resolve false (.ok []))).1.errorMessage = some m) ∧
    (∃ m, (handleAnalyze noParse (JSDate.valid 0) sampleState (.reject (.err "boom"))
        (.reject .nonError)).1.errorMessage = some m) :=
  ⟨C9_boundary_catches_all.1 noParse (JSDate.valid 0) sampleState (.reject (.err "boom"))
      (.reject .nonError) (by decide),
   C9_boundary_catches_all.2.1 noParse sampleState (.resolve false (.ok [])),
   C9_boundary_catches_all.2.2.1 noParse sampleState (.resolve false (.ok [])) (by decide),
   C9_boundary_catches_all.2.2.2 noParse (JSDate.valid 0) sampleState (.reject (.err "boom"))
      (.reject .nonError) (by decide) (by decide)⟩

/-- C10: every history refresh clears `errorMessage` and raises
`isLoadingHistory` in its synchronous opening, before any network response
(`fetchHistory` factors through `fetchHistoryStart` by definition, also when
invoked as the continuation of a successful submit), and the opening touches
no other slot — so while the refresh is loading no previously-set error
message is observable; if the refresh then fails, a fresh error message is
set afterwards. -/
theorem C10_refresh_clears_error (parseDate : String → JSDate)
    (s : ComponentState) (env : FetchResult (List HistoryWire)) :
    (fetchHistoryStart s).errorMessage = none ∧
    (fetchHistoryStart s).isLoadingHistory = true ∧
    (fetchHistoryStart s).text = s.text ∧
    (fetchHistoryStart s).result = s.result ∧
    (fetchHistoryStart s).history = s.history ∧
    (fetchHistory parseDate s env).1 = fetchHistoryRun parseDate (fetchHistoryStart s) env ∧
    (env.isFailure = true →
        ∃ m, (fetchHistory parseDate s env).1.errorMessage = some m) := by
  refine ⟨rfl, rfl, rfl, rfl, rfl, rfl, ?_⟩
  intro hfail
  cases env with
  | reject t =>
    exact ⟨t.message "Failed to load history",
      by simp [fetchHistory, fetchHistoryRun, fetchHistoryStart]⟩
  | resolve ok json =>
    cases ok with
    | false =>
      cases json <;>
        exact ⟨"Failed to load history",
          by simp [fetchHistory, fetchHistoryRun, fetchHistoryStart, Thrown.message]⟩
    | true =>
      cases json with
      | error t =>
        exact ⟨t.message "Failed to load history",
          by simp [fetchHistory, fetchHistoryRun, fetchHistoryStart]⟩
      | ok data => simp [FetchResult.isFailure] at hfail

/-- Witness for C10: a concrete refresh, starting from a state carrying a
stale error message, that then fails with a non-ok response. -/
theorem C10_refresh_clears_error_witness :
    (fetchHistoryStart sampleState).errorMessage = none ∧
    (fetchHistoryStart sampleState).isLoadingHistory = true ∧
    (∃ m, (fetchHistory noParse sampleState
        (.resolve false (.ok []))).1.errorMessage = some m) :=
  ⟨(C10_refresh_clears_error noParse sampleState (.resolve false (.ok []))).1,
   (C10_refresh_clears_error noParse sampleState (.resolve false (.ok []))).2.1,
   (C10_refresh_clears_error noParse sampleState
      (.resolve false (.ok []))).2.2.2.2.2.2 (by decide)⟩

/-- C5 counterexample: a refresh whose single wire item has an unparseable
`created_at` does not report an error and does not leave the history
untouched — it succeeds silently, storing a record that carries the
invalid-date marker as its timestamp. -/
theorem C5_counterexample :
    (fetchHistory noParse sampleState
        (.resolve true (.ok [badHistItem]))).1.errorMessage = none ∧
    (fetchHistory noParse sampleState
        (.resolve true (.ok [badHistItem]))).1.history ≠ sampleState.history ∧
    (fetchHistory noParse sampleState
        (.resolve true (.ok [badHistItem]))).1.history =
      [{ id := some "2", text := "bad", sentiment := "Neutral", score := 0,
         timestamp := JSDate.invalid }] := by
  refine ⟨rfl, ?_, rfl⟩
  simp [fetchHistory, fetchHistoryRun, fetchHistoryStart, mapHistoryItem,
    sampleState, badHistItem, noParse]

/-- C5 (amended): a malformed `created_at` does not fail the refresh —
`new Date` is total, so the operation does not crash, sets no error, and
replaces the history with the normalised array in which the malformed item's
record carries the invalid-date timestamp. -/
theorem C5_amended_invalid_date_stored (parseDate : String → JSDate)
    (s : ComponentState) (data : List HistoryWire) (item : HistoryWire)
    (hmem : item ∈ data) (hbad : parseDate item.created_at = JSDate.invalid) :
    (fetchHistory parseDate s (.resolve true (.ok data))).1.errorMessage = none ∧
    (fetchHistory parseDate s (.resolve true (.ok data))).1.history =
      data.map (mapHistoryItem parseDate) ∧
    ∃ r ∈ (fetchHistory parseDate s (.resolve true (.ok data))).1.history,
      r.timestamp = JSDate.invalid := by
  refine ⟨rfl, rfl, ⟨mapHistoryItem parseDate item, ?_, hbad⟩⟩
  have e : (fetchHistory parseDate s (.resolve true (.ok data))).1.history =
      data.map (mapHistoryItem parseDate) := rfl
  rw [e]
  exact List.mem_map_of_mem _ hmem

/-- Witness for C5 (amended) at the concrete malformed item. -/
theorem C5_amended_invalid_date_stored_witness :
    (fetchHistory noParse sampleState
        (.resolve true (.ok [badHistItem]))).1.errorMessage = none ∧
    (fetchHistory noParse sampleState
        (.resolve true (.ok [badHistItem]))).1.history =
      [badHistItem].map (mapHistoryItem noParse) ∧
    ∃ r ∈ (fetchHistory noParse sampleState
        (.resolve true (.ok [badHistItem]))).1.history,
      r.timestamp = JSDate.invalid :=
  C5_amended_invalid_date_stored noParse sampleState [badHistItem] badHistItem
    (List.mem_singleton_self badHistItem) rfl

/-- C6 counterexample: a history response carrying 11 items (a service that
ignores the requested limit) is stored wholesale, so the stored history
exceeds the 10-entry cap — the client does not enforce it. -/
theorem C6_counterexample :
    (fetchHistory noParse sampleState
        (.resolve true (.ok (List.replicate 11 sampleHistItem)))).1.history.length = 11 ∧
    ¬ (fetchHistory noParse sampleState
        (.resolve true (.ok (List.replicate 11 sampleHistItem)))).1.history.length ≤ 10 := by
  have h : (fetchHistory noParse sampleState
      (.resolve true (.ok (List.replicate 11 sampleHistItem)))).1.history.length = 11 := by
    simp [fetchHistory, fetchHistoryRun, fetchHistoryStart]
  exact ⟨h, by omega⟩

/-- C6 (amended): the client requests at most 10 records — every history
request issued by either operation carries `limit=10` — but stores a
successful response array at its own length, with no client-side cap: the
stored history stays within 10 exactly when the service honours the limit,
and keeps its previous value on failure. -/
theorem C6_amended_limit10_no_cap :
    (∀ (parseDate : String → JSDate) (s : ComponentState)
        (env : FetchResult (List HistoryWire)),
        (fetchHistory parseDate s env).2 = [Request.historyReq 10]) ∧
    (∀ (parseDate : String → JSDate) (s : ComponentState) (data : List HistoryWire),
        (fetchHistory parseDate s (.resolve true (.ok data))).1.history.length =
          data.length) ∧
    (∀ (parseDate : String → JSDate) (s : ComponentState) (data : List HistoryWire),
        data.length ≤ 10 →
        (fetchHistory parseDate s (.resolve true (.ok data))).1.history.length ≤ 10) ∧
    (∀ (parseDate : String → JSDate) (s : ComponentState)
        (env : FetchResult (List HistoryWire)), env.isFailure = true →
        (fetchHistory parseDate s env).1.history = s.history) ∧
    (∀ (parseDate : String → JSDate) (now : JSDate) (s : ComponentState)
        (env : FetchResult AnalyzeWire) (histEnv : FetchResult (List HistoryWire))
        (l : Nat),
        Request.historyReq l ∈ (handleAnalyze parseDate now s env histEnv).2 → l = 10) := by
  have hlen : ∀ (parseDate : String → JSDate) (s : ComponentState)
      (data : List HistoryWire),
      (fetchHistory parseDate s (.resolve true (.ok data))).1.history.length =
        data.length := by
    intro pd s data
    simp [fetchHistory, fetchHistoryRun, fetchHistoryStart]
  refine ⟨fun _ _ _ => rfl, hlen, ?_, ?_, ?_⟩
  · intro pd s data hd
    rw [hlen pd s data]
    exact hd
  · intro pd s env hfail
    cases env with
    | reject t => simp [fetchHistory, fetchHistoryRun, fetchHistoryStart]
    | resolve ok json =>
      cases ok with
      | false =>
        cases json <;> simp [fetchHistory, fetchHistoryRun, fetchHistoryStart]
      | true =>
        cases json with
        | error t => simp [fetchHistory, fetchHistoryRun, fetchHistoryStart]
        | ok data => simp [FetchResult.isFailure] at hfail
  · intro pd now s env histEnv l hmem
    by_cases hg : jsTrim s.text = ""
    · simp [handleAnalyze, hg] at hmem
    · cases env with
      | reject t => simp [handleAnalyze, hg] at hmem
      | resolve ok json =>
        cases ok with
        | false => cases json <;> simp [handleAnalyze, hg] at hmem
        | true =>
          cases json with
          | error t => simp [handleAnalyze, hg] at hmem
          | ok data =>
            simp [handleAnalyze, hg, fetchHistory] at hmem
            exact hmem

/-- Witness for C6 (amended): concrete refresh and submit calls. -/
theorem C6_amended_limit10_no_cap_witness :
    (fetchHistory noParse sampleState (.resolve true (.ok [sampleHistItem]))).2 =
      [Request.historyReq 10] ∧
    (fetchHistory noParse sampleState
        (.resolve true (.ok [sampleHistItem]))).1.history.length = [sampleHistItem].length ∧
    (fetchHistory noParse sampleState
        (.resolve true (.ok [sampleHistItem]))).1.history.length ≤ 10 ∧
    (fetchHistory noParse sampleState (.reject (.err "boom"))).1.history =
      sampleState.history ∧
    (Request.historyReq 7 ∈ (handleAnalyze noParse (JSDate.valid 0) sampleState
        (.resolve true (.ok sampleWire)) (.resolve true (.ok []))).2 → 7 = 10) :=
  ⟨C6_amended_limit10_no_cap.1 noParse sampleState (.resolve true (.ok [sampleHistItem])),
   C6_amended_limit10_no_cap.2.1 noParse sampleState [sampleHistItem],
   C6_amended_limit10_no_cap.2.2.1 noParse sampleState [sampleHistItem] (by decide),
   C6_amended_limit10_no_cap.2.2.2.1 noParse sampleState (.reject (.err "boom")) (by decide),
   C6_amended_limit10_no_cap.2.2.2.2 noParse (JSDate.valid 0) sampleState
     (.resolve true (.ok sampleWire)) (.resolve true (.ok [])) 7⟩

end SentimentAnalyzer
